import Mathlib

/-!
Shallow embedding of `src/RTCPeerConnection.js` (react-native-webrtc):
the session negotiation and state-synchronization core. The class
`RTCPeerConnection` becomes a state record, the seven `DeviceEventEmitter`
listeners registered by `_registerEvents` become a step function on that
record, outbound `WebRTCModule` calls become an explicit command type, and
the engine completion callbacks of the asynchronous commands become pure
functions from the callback arguments to the new state plus an outcome that
records which caller continuation was invoked (or that an absent JavaScript
function was called, a TypeError).
-/

namespace RTCPC

/-- Model of a media track as carried in the `tracks` payload of a
`peerConnectionAddedStream` event. The class `MediaStreamTrack` itself lives
outside the given source; only its identity and payload role matter here. -/
structure MediaStreamTrack where
  id : String
  kind : String
  enabled : Bool
deriving DecidableEq, Repr

/-- Modelled from the spec: the class `MediaStream` (file MediaStream.js) is not
among the given source files. Per the spec a Stream is an identity plus an
ordered collection of Tracks; the listener builds it by `new MediaStream(streamId)`
followed by one `addTrack` per payload track, which we flatten into this record. -/
structure MediaStream where
  id : String
  tracks : List MediaStreamTrack
deriving DecidableEq, Repr

/-- Modelled from the spec: the class `RTCSessionDescription` (file
RTCSessionDescription.js) is not among the given source files. The spec gives
the wire shape: a type tag (offer, answer, pranswer) plus an opaque sdp blob. -/
structure RTCSessionDescription where
  sdpType : String
  sdp : String
deriving DecidableEq, Repr

/-- The observable state of one `RTCPeerConnection` instance: the two stored
descriptions, the three state fields (initialized "stable", "new", "new" by the
field initializers in the class body), the remote stream array, plus
`subscribed`, which models whether `_subscriptions` still holds the listeners
registered by `_registerEvents` (true from the constructor until
`_unregisterEvents` empties it). -/
structure RTCPeerConnection where
  _peerConnectionId : Nat
  localDescription : Option RTCSessionDescription
  remoteDescription : Option RTCSessionDescription
  signalingState : String
  iceGatheringState : String
  iceConnectionState : String
  _remoteStreams : List MediaStream
  subscribed : Bool
deriving DecidableEq, Repr

/-- The state built by the constructor: field initializers plus
`_registerEvents` (so `subscribed` is true). -/
def newPeerConnection (peerConnectionId : Nat) : RTCPeerConnection :=
  { _peerConnectionId := peerConnectionId
    localDescription := none
    remoteDescription := none
    signalingState := "stable"
    iceGatheringState := "new"
    iceConnectionState := "new"
    _remoteStreams := []
    subscribed := true }

/-- The seven inbound engine events on the shared `DeviceEventEmitter` channel,
each carrying the session identity `id` and its kind-specific payload. -/
inductive InEvent where
  | peerConnectionOnRenegotiationNeeded (id : Nat)
  | peerConnectionIceConnectionChanged (id : Nat) (iceConnectionState : String)
  | peerConnectionSignalingStateChanged (id : Nat) (signalingState : String)
  | peerConnectionAddedStream (id : Nat) (streamId : String) (tracks : List MediaStreamTrack)
  | peerConnectionRemovedStream (id : Nat) (streamId : String)
  | peerConnectionGotICECandidate (id : Nat) (candidate : String)
  | peerConnectionIceGatheringChanged (id : Nat) (iceGatheringState : String)
deriving DecidableEq, Repr

/-- The session identity carried by an inbound event (`ev.id`). -/
def eventId : InEvent → Nat
  | .peerConnectionOnRenegotiationNeeded id => id
  | .peerConnectionIceConnectionChanged id _ => id
  | .peerConnectionSignalingStateChanged id _ => id
  | .peerConnectionAddedStream id _ _ => id
  | .peerConnectionRemovedStream id _ => id
  | .peerConnectionGotICECandidate id _ => id
  | .peerConnectionIceGatheringChanged id _ => id

/-- The typed notifications dispatched to subscribers via `dispatchEvent`,
with the payload each carries in the source. -/
inductive Notif where
  | negotiationneeded
  | iceconnectionstatechange
  | signalingstatechange
  | addstream (stream : MediaStream)
  | removestream (stream : Option MediaStream)
  | icecandidate (candidate : String)
  | icegatheringstatechange
deriving DecidableEq, Repr

/-- One inbound event hitting the listeners of one `RTCPeerConnection`:
if `_subscriptions` was emptied the listeners no longer exist and nothing
happens; each listener first drops events whose `ev.id` differs from
`_peerConnectionId`; otherwise the kind-specific body runs, returning the new
state and the notifications dispatched (in dispatch order). -/
def handleEvent (pc : RTCPeerConnection) (ev : InEvent) : RTCPeerConnection × List Notif :=
  if pc.subscribed = true then
    if eventId ev = pc._peerConnectionId then
      match ev with
      | .peerConnectionOnRenegotiationNeeded _ =>
        (pc, [Notif.negotiationneeded])
      | .peerConnectionIceConnectionChanged _ st =>
        ({ pc with iceConnectionState := st
                   subscribed := if st = "closed" then false else pc.subscribed },
         [Notif.iceconnectionstatechange])
      | .peerConnectionSignalingStateChanged _ st =>
        ({ pc with signalingState := st }, [Notif.signalingstatechange])
      | .peerConnectionAddedStream _ streamId tracks =>
        let stream : MediaStream := { id := streamId, tracks := tracks }
        ({ pc with _remoteStreams := pc._remoteStreams ++ [stream] },
         [Notif.addstream stream])
      | .peerConnectionRemovedStream _ streamId =>
        let stream := pc._remoteStreams.find? (fun m => m.id == streamId)
        ({ pc with _remoteStreams := pc._remoteStreams.eraseP (fun m => m.id == streamId) },
         [Notif.removestream stream])
      | .peerConnectionGotICECandidate _ candidate =>
        (pc, [Notif.icecandidate candidate])
      | .peerConnectionIceGatheringChanged _ st =>
        ({ pc with iceGatheringState := st }, [Notif.icegatheringstatechange])
    else
      (pc, [])
  else
    (pc, [])

/-- A sequence of inbound events in engine-emission order, folded through
`handleEvent`; notifications are concatenated in delivery order. -/
def processEvents (pc : RTCPeerConnection) : List InEvent → RTCPeerConnection × List Notif
  | [] => (pc, [])
  | ev :: rest =>
    ((processEvents (handleEvent pc ev).1 rest).1,
     (handleEvent pc ev).2 ++ (processEvents (handleEvent pc ev).1 rest).2)

/-- Outbound fire-and-forget commands sent to `WebRTCModule`. -/
inductive EngineCmd where
  | peerConnectionInit (id : Nat)
  | peerConnectionAddStream (streamId : String) (id : Nat)
  | peerConnectionRemoveStream (streamId : String) (id : Nat)
  | peerConnectionClose (id : Nat)
deriving DecidableEq, Repr

/-- The method `addStream`: forwards the stream id to the engine, touches no
local state. -/
def addStream (pc : RTCPeerConnection) (stream : MediaStream) :
    RTCPeerConnection × EngineCmd :=
  (pc, EngineCmd.peerConnectionAddStream stream.id pc._peerConnectionId)

/-- The method `removeStream`: forwards the stream id to the engine, touches no
local state. -/
def removeStream (pc : RTCPeerConnection) (stream : MediaStream) :
    RTCPeerConnection × EngineCmd :=
  (pc, EngineCmd.peerConnectionRemoveStream stream.id pc._peerConnectionId)

/-- The method `close`: sends `peerConnectionClose` to the engine and nothing
else; in particular it leaves every state field alone. -/
def close (pc : RTCPeerConnection) : RTCPeerConnection × EngineCmd :=
  (pc, EngineCmd.peerConnectionClose pc._peerConnectionId)

/-- Outcome of running an engine completion callback in JavaScript:
either it ran to completion, recording whether the caller's success and
failure continuations were invoked, or it called an absent (undefined)
function, which throws a TypeError. -/
inductive JsOutcome where
  | ok (successCalled : Bool) (failureCalled : Bool)
  | typeError
deriving DecidableEq, Repr

/-- The completion callback `createOffer` hands to the engine: on a successful
completion it calls `success(...)` with no guard, on failure `failure(data)`
with no guard; a continuation the caller omitted is then an undefined function. -/
def createOfferCallback (success failure : Option Unit) (successful : Bool) : JsOutcome :=
  if successful then
    match success with
    | some _ => JsOutcome.ok true false
    | none => JsOutcome.typeError
  else
    match failure with
    | some _ => JsOutcome.ok false true
    | none => JsOutcome.typeError

/-- The completion callback of `createAnswer`; same unguarded shape as
`createOffer`. -/
def createAnswerCallback (success failure : Option Unit) (successful : Bool) : JsOutcome :=
  if successful then
    match success with
    | some _ => JsOutcome.ok true false
    | none => JsOutcome.typeError
  else
    match failure with
    | some _ => JsOutcome.ok false true
    | none => JsOutcome.typeError

/-- The completion callback of `setLocalDescription(sessionDescription, ...)`:
on success it first stores the caller-supplied `sessionDescription` (not the
engine's echoed `data`) into `localDescription`, then calls `success()`
unguarded; on failure it leaves the state alone and calls `failure(data)`
unguarded. -/
def setLocalDescriptionCallback (pc : RTCPeerConnection)
    (sessionDescription : RTCSessionDescription) (success failure : Option Unit)
    (successful : Bool) (data : String) : RTCPeerConnection × JsOutcome :=
  if successful then
    ({ pc with localDescription := some sessionDescription },
     match success with
     | some _ => JsOutcome.ok true false
     | none => JsOutcome.typeError)
  else
    (pc,
     match failure with
     | some _ => JsOutcome.ok false true
     | none => JsOutcome.typeError)

/-- The completion callback of `setRemoteDescription`; symmetric to
`setLocalDescription`, storing into `remoteDescription`. -/
def setRemoteDescriptionCallback (pc : RTCPeerConnection)
    (sessionDescription : RTCSessionDescription) (success failure : Option Unit)
    (successful : Bool) (data : String) : RTCPeerConnection × JsOutcome :=
  if successful then
    ({ pc with remoteDescription := some sessionDescription },
     match success with
     | some _ => JsOutcome.ok true false
     | none => JsOutcome.typeError)
  else
    (pc,
     match failure with
     | some _ => JsOutcome.ok false true
     | none => JsOutcome.typeError)

/-- The completion callback of `addIceCandidate`: both continuations are
guarded (`success && success()`, `failure && failure()`), so an omitted one is
silently skipped and no TypeError is possible. -/
def addIceCandidateCallback (success failure : Option Unit) (successful : Bool) : JsOutcome :=
  if successful then
    JsOutcome.ok success.isSome false
  else
    JsOutcome.ok false failure.isSome

/-- The track-id argument `getStats` sends to the engine: `track.id` when a
track was supplied, otherwise the sentinel -1 (modelled as `none`). -/
def statsTrackArg : Option MediaStreamTrack → Option String
  | some t => some t.id
  | none => none

/-- Everything one `getStats` call does, capability branch and (when taken)
engine round-trip included. -/
structure GetStatsRun where
  state : RTCPeerConnection
  warned : Bool
  engineQuery : Option (Option String)
  outcome : JsOutcome
deriving DecidableEq, Repr

/-- The method `getStats(track, success, failure)`: when the engine exposes
`peerConnectionGetStats` it queries it with the track argument and the stats
callback invokes `success` guarded (`success && success(stats)`); `failure` is
never consulted. When the capability is absent it only prints a warning:
no query, no continuation call, no throw, no state change. -/
def getStats (hasGetStats : Bool) (track : Option MediaStreamTrack)
    (success failure : Option Unit) (pc : RTCPeerConnection) : GetStatsRun :=
  if hasGetStats then
    { state := pc
      warned := false
      engineQuery := some (statsTrackArg track)
      outcome := JsOutcome.ok success.isSome false }
  else
    { state := pc
      warned := true
      engineQuery := none
      outcome := JsOutcome.ok false false }

/-- The sub-sequence of an event trace that is actually applied to this
connection: events arriving while the listeners are registered and whose
carried identity matches. -/
def appliedEvents (pc : RTCPeerConnection) : List InEvent → List InEvent
  | [] => []
  | ev :: rest =>
    if pc.subscribed = true ∧ eventId ev = pc._peerConnectionId then
      ev :: appliedEvents (handleEvent pc ev).1 rest
    else
      appliedEvents (handleEvent pc ev).1 rest

/-- How one applied event updates the `signalingState` field. -/
def sigStep (acc : String) : InEvent → String
  | .peerConnectionSignalingStateChanged _ st => st
  | _ => acc

/-- How one applied event updates the `iceConnectionState` field. -/
def iceConnStep (acc : String) : InEvent → String
  | .peerConnectionIceConnectionChanged _ st => st
  | _ => acc

/-- How one applied event updates the `iceGatheringState` field. -/
def iceGathStep (acc : String) : InEvent → String
  | .peerConnectionIceGatheringChanged _ st => st
  | _ => acc

/-- Once `_unregisterEvents` has removed the listeners, an inbound event
changes nothing and dispatches nothing. -/
theorem handleEvent_unsubscribed (pc : RTCPeerConnection) (ev : InEvent)
    (h : pc.subscribed = false) : handleEvent pc ev = (pc, []) := by
  simp [handleEvent, h]

/-- An event whose carried identity differs from `_peerConnectionId` is
dropped by the guard at the top of every listener. -/
theorem handleEvent_foreign (pc : RTCPeerConnection) (ev : InEvent)
    (h : eventId ev ≠ pc._peerConnectionId) : handleEvent pc ev = (pc, []) := by
  by_cases hs : pc.subscribed = true <;> simp [handleEvent, hs, h]

/-- With the listeners removed, a whole trace of inbound events changes
nothing and dispatches nothing. -/
theorem processEvents_unsubscribed (pc : RTCPeerConnection) (evs : List InEvent)
    (h : pc.subscribed = false) : processEvents pc evs = (pc, []) := by
  induction evs with
  | nil => rfl
  | cons ev rest ih =>
    simp [processEvents, handleEvent_unsubscribed pc ev h, ih]

/-- Generic trace lemma: a projection of the state that every applied event
updates according to `step` ends up equal to the fold of `step` over exactly
the applied events. -/
theorem processEvents_proj (proj : RTCPeerConnection → String)
    (step : String → InEvent → String)
    (hstep : ∀ pc ev, pc.subscribed = true → eventId ev = pc._peerConnectionId →
      proj (handleEvent pc ev).1 = step (proj pc) ev) :
    ∀ (evs : List InEvent) (pc : RTCPeerConnection),
      proj (processEvents pc evs).1 = (appliedEvents pc evs).foldl step (proj pc) := by
  intro evs
  induction evs with
  | nil => intro pc; rfl
  | cons ev rest ih =>
    intro pc
    by_cases h : pc.subscribed = true ∧ eventId ev = pc._peerConnectionId
    · simp only [processEvents, appliedEvents, if_pos h, List.foldl_cons]
      rw [ih, hstep pc ev h.1 h.2]
    · have hne : handleEvent pc ev = (pc, []) := by
        by_cases hs : pc.subscribed = true
        · exact handleEvent_foreign pc ev (fun he => h ⟨hs, he⟩)
        · exact handleEvent_unsubscribed pc ev (by simpa using hs)
      simp only [processEvents, appliedEvents, if_neg h, hne]
      exact ih pc

/-- An applied event updates `signalingState` exactly as `sigStep` says. -/
theorem handleEvent_sig (pc : RTCPeerConnection) (ev : InEvent)
    (h1 : pc.subscribed = true) (h2 : eventId ev = pc._peerConnectionId) :
    (handleEvent pc ev).1.signalingState = sigStep pc.signalingState ev := by
  cases ev <;> simp_all [handleEvent, eventId, sigStep]

/-- An applied event updates `iceConnectionState` exactly as `iceConnStep`
says. -/
theorem handleEvent_iceConn (pc : RTCPeerConnection) (ev : InEvent)
    (h1 : pc.subscribed = true) (h2 : eventId ev = pc._peerConnectionId) :
    (handleEvent pc ev).1.iceConnectionState = iceConnStep pc.iceConnectionState ev := by
  cases ev <;> simp_all [handleEvent, eventId, iceConnStep]

/-- An applied event updates `iceGatheringState` exactly as `iceGathStep`
says. -/
theorem handleEvent_iceGath (pc : RTCPeerConnection) (ev : InEvent)
    (h1 : pc.subscribed = true) (h2 : eventId ev = pc._peerConnectionId) :
    (handleEvent pc ev).1.iceGatheringState = iceGathStep pc.iceGatheringState ev := by
  cases ev <;> simp_all [handleEvent, eventId, iceGathStep]

/-- C1 counterexample: applied to a fresh connection, two stream-added events
carrying the same identity "s1" leave TWO entries for that identity in the
remote stream set and dispatch TWO addstream notifications, each with a
freshly constructed Stream — refuting that the second event inserts nothing
and emits no second notification. -/
theorem duplicate_stream_added_counterexample :
    ((processEvents (newPeerConnection 0)
        [InEvent.peerConnectionAddedStream 0 "s1" [],
         InEvent.peerConnectionAddedStream 0 "s1" []]).1._remoteStreams
      = [{ id := "s1", tracks := [] }, { id := "s1", tracks := [] }])
    ∧ (processEvents (newPeerConnection 0)
        [InEvent.peerConnectionAddedStream 0 "s1" [],
         InEvent.peerConnectionAddedStream 0 "s1" []]).2
      = [Notif.addstream { id := "s1", tracks := [] },
         Notif.addstream { id := "s1", tracks := [] }] :=
  ⟨rfl, rfl⟩

/-- C1 (amended): the stream-added listener performs no presence check, so a
second stream-added event with the same identity constructs and appends a
second Stream and dispatches a second addstream notification carrying it. -/
theorem duplicate_stream_added_appends_again (pc : RTCPeerConnection)
    (streamId : String) (tracks : List MediaStreamTrack)
    (h : pc.subscribed = true) :
    processEvents pc
        [InEvent.peerConnectionAddedStream pc._peerConnectionId streamId tracks,
         InEvent.peerConnectionAddedStream pc._peerConnectionId streamId tracks]
      = ({ pc with _remoteStreams := pc._remoteStreams
              ++ [{ id := streamId, tracks := tracks },
                  { id := streamId, tracks := tracks }] },
         [Notif.addstream { id := streamId, tracks := tracks },
          Notif.addstream { id := streamId, tracks := tracks }]) := by
  simp [processEvents, handleEvent, eventId, h]

/-- C1 witness: the amended statement evaluated on a fresh connection. -/
theorem duplicate_stream_added_appends_again_witness :
    processEvents (newPeerConnection 7)
        [InEvent.peerConnectionAddedStream 7 "s2" [],
         InEvent.peerConnectionAddedStream 7 "s2" []]
      = ({ newPeerConnection 7 with _remoteStreams :=
            [{ id := "s2", tracks := [] }, { id := "s2", tracks := [] }] },
         [Notif.addstream { id := "s2", tracks := [] },
          Notif.addstream { id := "s2", tracks := [] }]) := by
  simpa using duplicate_stream_added_appends_again (newPeerConnection 7) "s2" [] rfl

/-- C2: when the engine completion of `setLocalDescription(d, ...)` reports
success, `localDescription` equals the caller-supplied `d` (independently of
the engine's echoed `data`); when it reports failure, the whole state is
unchanged. -/
theorem setLocalDescription_roundtrip (pc : RTCPeerConnection)
    (d : RTCSessionDescription) (success failure : Option Unit) (data : String) :
    ((setLocalDescriptionCallback pc d success failure true data).1
        = { pc with localDescription := some d }
      ∧ (setLocalDescriptionCallback pc d success failure true data).1.localDescription
        = some d)
    ∧ (setLocalDescriptionCallback pc d success failure false data).1 = pc :=
  ⟨⟨rfl, rfl⟩, rfl⟩

/-- C3: once the ice-connection-changed event carrying "closed" is applied,
the subscriptions are gone, and every subsequent trace of inbound events (of
any of the seven kinds) leaves the state untouched and dispatches nothing;
nothing ever re-registers the listeners. -/
theorem closed_unsubscribes_permanently (pc : RTCPeerConnection)
    (evs : List InEvent) (h : pc.subscribed = true) :
    ((handleEvent pc (InEvent.peerConnectionIceConnectionChanged
        pc._peerConnectionId "closed")).1.subscribed = false)
    ∧ processEvents (handleEvent pc (InEvent.peerConnectionIceConnectionChanged
        pc._peerConnectionId "closed")).1 evs
      = ((handleEvent pc (InEvent.peerConnectionIceConnectionChanged
          pc._peerConnectionId "closed")).1, []) := by
  have hsub : (handleEvent pc (InEvent.peerConnectionIceConnectionChanged
      pc._peerConnectionId "closed")).1.subscribed = false := by
    simp [handleEvent, h, eventId]
  exact ⟨hsub, processEvents_unsubscribed _ evs hsub⟩

/-- C3 witness: a post-closed signaling event on a fresh connection is not
delivered. -/
theorem closed_unsubscribes_permanently_witness :
    ((handleEvent (newPeerConnection 0)
        (InEvent.peerConnectionIceConnectionChanged 0 "closed")).1.subscribed = false)
    ∧ processEvents (handleEvent (newPeerConnection 0)
        (InEvent.peerConnectionIceConnectionChanged 0 "closed")).1
        [InEvent.peerConnectionSignalingStateChanged 0 "have-local-offer"]
      = ((handleEvent (newPeerConnection 0)
          (InEvent.peerConnectionIceConnectionChanged 0 "closed")).1, []) :=
  closed_unsubscribes_permanently (newPeerConnection 0)
    [InEvent.peerConnectionSignalingStateChanged 0 "have-local-offer"] rfl

/-- C4: over any trace, each of the three state fields equals the fold of the
corresponding update step over exactly the applied events (so it carries the
value of the most recent applied event of that kind, or the prior value when
there was none); and each applied state-changed event unconditionally
overwrites its field with the carried value — whatever string it is — and
dispatches exactly the corresponding change notification. -/
theorem state_fields_follow_applied_events (pc : RTCPeerConnection)
    (evs : List InEvent) :
    ((processEvents pc evs).1.signalingState
        = (appliedEvents pc evs).foldl sigStep pc.signalingState
      ∧ (processEvents pc evs).1.iceConnectionState
        = (appliedEvents pc evs).foldl iceConnStep pc.iceConnectionState
      ∧ (processEvents pc evs).1.iceGatheringState
        = (appliedEvents pc evs).foldl iceGathStep pc.iceGatheringState)
    ∧ (∀ v, pc.subscribed = true →
        handleEvent pc (InEvent.peerConnectionSignalingStateChanged
            pc._peerConnectionId v)
          = ({ pc with signalingState := v }, [Notif.signalingstatechange]))
    ∧ (∀ v, pc.subscribed = true →
        handleEvent pc (InEvent.peerConnectionIceGatheringChanged
            pc._peerConnectionId v)
          = ({ pc with iceGatheringState := v }, [Notif.icegatheringstatechange]))
    ∧ (∀ v, pc.subscribed = true →
        handleEvent pc (InEvent.peerConnectionIceConnectionChanged
            pc._peerConnectionId v)
          = ({ pc with iceConnectionState := v,
                       subscribed := if v = "closed" then false else true },
             [Notif.iceconnectionstatechange])) := by
  refine ⟨⟨processEvents_proj _ _ handleEvent_sig evs pc,
          processEvents_proj _ _ handleEvent_iceConn evs pc,
          processEvents_proj _ _ handleEvent_iceGath evs pc⟩,
         fun v h => by simp [handleEvent, eventId, h],
         fun v h => by simp [handleEvent, eventId, h],
         fun v h => by simp [handleEvent, eventId, h]⟩

/-- C4 witness: the trace part on a concrete two-event trace and the
overwrite part at a concrete value, on a fresh connection. -/
theorem state_fields_follow_applied_events_witness :
    (processEvents (newPeerConnection 0)
        [InEvent.peerConnectionSignalingStateChanged 0 "have-local-offer",
         InEvent.peerConnectionIceGatheringChanged 0 "gathering"]).1.signalingState
      = (appliedEvents (newPeerConnection 0)
          [InEvent.peerConnectionSignalingStateChanged 0 "have-local-offer",
           InEvent.peerConnectionIceGatheringChanged 0 "gathering"]).foldl
          sigStep "stable"
    ∧ handleEvent (newPeerConnection 0)
        (InEvent.peerConnectionSignalingStateChanged 0 "have-remote-offer")
      = ({ newPeerConnection 0 with signalingState := "have-remote-offer" },
         [Notif.signalingstatechange]) :=
  ⟨(state_fields_follow_applied_events (newPeerConnection 0)
      [InEvent.peerConnectionSignalingStateChanged 0 "have-local-offer",
       InEvent.peerConnectionIceGatheringChanged 0 "gathering"]).1.1,
   (state_fields_follow_applied_events (newPeerConnection 0) []).2.1
      "have-remote-offer" rfl⟩

/-- C5: a stream-removed event whose identity is not in the remote stream set
still dispatches a removestream notification, with the stream payload absent
(`none`), and leaves the state (the stream set included) unchanged. -/
theorem removed_unknown_stream_degraded (pc : RTCPeerConnection)
    (streamId : String) (h : pc.subscribed = true)
    (hnone : pc._remoteStreams.find? (fun m => m.id == streamId) = none) :
    handleEvent pc (InEvent.peerConnectionRemovedStream pc._peerConnectionId streamId)
      = (pc, [Notif.removestream none]) := by
  have hall : ∀ m ∈ pc._remoteStreams, ¬ ((fun m => m.id == streamId) m = true) := by
    simpa using List.find?_eq_none.mp hnone
  have herase : pc._remoteStreams.eraseP (fun m => m.id == streamId) = pc._remoteStreams :=
    List.eraseP_of_forall_not hall
  obtain ⟨pid, ld, rd, ss, gs, cs, rs, sub⟩ := pc
  simp_all [handleEvent, eventId]

/-- C5 witness: removal of a never-added identity on a fresh connection. -/
theorem removed_unknown_stream_degraded_witness :
    handleEvent (newPeerConnection 0) (InEvent.peerConnectionRemovedStream 0 "s1")
      = (newPeerConnection 0, [Notif.removestream none]) :=
  removed_unknown_stream_degraded (newPeerConnection 0) "s1" rfl rfl

/-- C6: when the engine lacks `peerConnectionGetStats`, `getStats` only warns:
no engine query, neither continuation invoked, no throw (the run completes
with a normal outcome), and the state is unchanged. -/
theorem getStats_unsupported_noop (pc : RTCPeerConnection)
    (track : Option MediaStreamTrack) (success failure : Option Unit) :
    getStats false track success failure pc
      = { state := pc, warned := true, engineQuery := none,
          outcome := JsOutcome.ok false false } :=
  rfl

/-- C7: `close()` forwards `peerConnectionClose` to the engine and changes no
state field at all; `iceConnectionState` becomes "closed" only when the
matching inbound ice-connection-changed event is applied. -/
theorem close_defers_state_change (pc : RTCPeerConnection) :
    (close pc).1 = pc
    ∧ (close pc).2 = EngineCmd.peerConnectionClose pc._peerConnectionId
    ∧ (pc.subscribed = true →
        (handleEvent pc (InEvent.peerConnectionIceConnectionChanged
            pc._peerConnectionId "closed")).1.iceConnectionState = "closed") := by
  refine ⟨rfl, rfl, fun h => ?_⟩
  simp [handleEvent, eventId, h]

/-- C7 witness: closing a fresh connection leaves it untouched, and the
subsequent inbound closed event flips the field. -/
theorem close_defers_state_change_witness :
    (close (newPeerConnection 0)).1 = newPeerConnection 0
    ∧ (handleEvent (newPeerConnection 0)
        (InEvent.peerConnectionIceConnectionChanged 0 "closed")).1.iceConnectionState
      = "closed" :=
  ⟨(close_defers_state_change (newPeerConnection 0)).1,
   (close_defers_state_change (newPeerConnection 0)).2.2 rfl⟩

/-- C8: an inbound event of any of the seven kinds whose carried identity
differs from this connection's identity changes nothing and dispatches
nothing. -/
theorem foreign_event_is_ignored (pc : RTCPeerConnection) (ev : InEvent)
    (h : eventId ev ≠ pc._peerConnectionId) :
    handleEvent pc ev = (pc, []) :=
  handleEvent_foreign pc ev h

/-- C8 witness: an event for connection 1 hitting connection 0. -/
theorem foreign_event_is_ignored_witness :
    handleEvent (newPeerConnection 0)
        (InEvent.peerConnectionSignalingStateChanged 1 "closed")
      = (newPeerConnection 0, []) :=
  foreign_event_is_ignored (newPeerConnection 0)
    (InEvent.peerConnectionSignalingStateChanged 1 "closed") (by decide)

/-- C9: the completion callbacks of createOffer, createAnswer,
setLocalDescription and setRemoteDescription invoke the matching continuation
unguarded, so an omitted continuation is called as an undefined function
(TypeError); addIceCandidate and getStats guard theirs and silently discard
the outcome when it is omitted. -/
theorem completion_guard_asymmetry :
    (∀ failure : Option Unit,
      createOfferCallback none failure true = JsOutcome.typeError)
    ∧ (∀ success : Option Unit,
      createOfferCallback success none false = JsOutcome.typeError)
    ∧ (∀ failure : Option Unit,
      createAnswerCallback none failure true = JsOutcome.typeError)
    ∧ (∀ success : Option Unit,
      createAnswerCallback success none false = JsOutcome.typeError)
    ∧ (∀ pc d failure data,
      (setLocalDescriptionCallback pc d none failure true data).2 = JsOutcome.typeError)
    ∧ (∀ pc d success data,
      (setLocalDescriptionCallback pc d success none false data).2 = JsOutcome.typeError)
    ∧ (∀ pc d failure data,
      (setRemoteDescriptionCallback pc d none failure true data).2 = JsOutcome.typeError)
    ∧ (∀ pc d success data,
      (setRemoteDescriptionCallback pc d success none false data).2 = JsOutcome.typeError)
    ∧ (∀ successful : Bool,
      addIceCandidateCallback none none successful = JsOutcome.ok false false)
    ∧ (∀ pc track failure,
      (getStats true track none failure pc).outcome = JsOutcome.ok false false) := by
  refine ⟨fun _ => rfl, fun _ => rfl, fun _ => rfl, fun _ => rfl,
    fun _ _ _ _ => rfl, fun _ _ _ _ => rfl, fun _ _ _ _ => rfl, fun _ _ _ _ => rfl,
    fun b => ?_, fun _ _ _ => rfl⟩
  cases b <;> rfl

/-- C10: the ice-connection-changed event carrying "closed" still updates the
field and dispatches its own iceconnectionstatechange notification before the
teardown takes effect; only the events after it in the trace are suppressed. -/
theorem closed_notification_still_delivered (pc : RTCPeerConnection)
    (rest : List InEvent) (h : pc.subscribed = true) :
    processEvents pc (InEvent.peerConnectionIceConnectionChanged
        pc._peerConnectionId "closed" :: rest)
      = ({ pc with iceConnectionState := "closed", subscribed := false },
         [Notif.iceconnectionstatechange]) := by
  have he : handleEvent pc (InEvent.peerConnectionIceConnectionChanged
      pc._peerConnectionId "closed")
      = ({ pc with iceConnectionState := "closed", subscribed := false },
         [Notif.iceconnectionstatechange]) := by
    simp [handleEvent, h, eventId]
  have hrest := processEvents_unsubscribed
      ({ pc with iceConnectionState := "closed", subscribed := false }) rest rfl
  simp [processEvents, he, hrest]

/-- C10 witness: the closed notification is the only one delivered on a
trace where a candidate event follows the closed event. -/
theorem closed_notification_still_delivered_witness :
    processEvents (newPeerConnection 0)
        [InEvent.peerConnectionIceConnectionChanged 0 "closed",
         InEvent.peerConnectionGotICECandidate 0 "cand"]
      = ({ newPeerConnection 0 with iceConnectionState := "closed", subscribed := false },
         [Notif.iceconnectionstatechange]) :=
  closed_notification_still_delivered (newPeerConnection 0)
    [InEvent.peerConnectionGotICECandidate 0 "cand"] rfl

end RTCPC
